import Mathlib

/-!
# Value semantics seminar examples

Two standalone programs are embedded here:

* `13_move_memory_class/6_copy_and_swap.cpp` : the class `Vector` with the
  copy-and-swap assignment operator (namespace `CopyAndSwap`);
* `22_variadic_templates_universal_references/4_universal_reference.cpp` :
  `Person`, `Student`, `forward` and `MakeUnique` (namespace `UniversalReference`).

Both programs only write trace lines to `std::cout`.  The console is modelled as the
list of lines written so far: every `std::cout << ... << '\n'` statement of the source
appends one element (the text in front of the terminating newline).
-/

set_option linter.unusedVariables false

namespace CopyAndSwap

/-- The data members of `class Vector` (lines 36-38).  `size_t` values are natural
numbers (the program does no arithmetic on them); the raw pointer `int* data_` is
`none` for `nullptr` and `some a` for the address `a`. -/
structure Vector where
  size_ : Nat
  capacity_ : Nat
  data_ : Option Nat
deriving DecidableEq, Repr

/-- What an execution leaves behind.  `out` is `std::cout`.  The other two fields are
bookkeeping that the source does not have: `constructed` counts the constructor calls
that have run, `destroyed` records the state every object had when its destructor ran. -/
structure Trace where
  out : List String
  constructed : Nat
  destroyed : List Vector
deriving DecidableEq, Repr

/-- The trace of a program that has not done anything yet. -/
def Trace.empty : Trace := ⟨[], 0, []⟩

/-- One statement `std::cout << "line\n";`. -/
def Trace.print (line : String) (tr : Trace) : Trace :=
  { tr with out := tr.out ++ [line] }

/-- Bookkeeping at the entry of every constructor. -/
def Trace.enterCtor (tr : Trace) : Trace :=
  { tr with constructed := tr.constructed + 1 }

/-- The default member initialisers `size_{0}`, `capacity_{0}`, `data_{nullptr}`
(lines 36-38): the state of an object whose constructor has no mem-initialiser. -/
def Vector.init : Vector := ⟨0, 0, none⟩

/-- The library function `std::swap(a, b)` on a single field: returns the new values
of `a` and of `b`. -/
def stdSwap {α : Type} (a b : α) : α × α := (b, a)

/-- The constructor `Vector() = default;` (line 7). -/
def Vector.defaultCtor (tr : Trace) : Vector × Trace :=
  (Vector.init, tr.enterCtor)

/-- The destructor `~Vector()` (lines 9-11), run on an object in state `self`. -/
def Vector.dtor (self : Vector) (tr : Trace) : Trace :=
  let tr := tr.print "delete memory"
  { tr with destroyed := tr.destroyed ++ [self] }

/-- The member `void swap(Vector& other)` (lines 28-33), for `*this` in state `self`.
Returns the states of `*this` and of `other` afterwards. -/
def Vector.swap (self other : Vector) (tr : Trace) : Vector × Vector × Trace :=
  let tr := tr.print "swap"
  let d := stdSwap self.data_ other.data_
  let self := { self with data_ := d.1 }
  let other := { other with data_ := d.2 }
  let s := stdSwap self.size_ other.size_
  let self := { self with size_ := s.1 }
  let other := { other with size_ := s.2 }
  let c := stdSwap self.capacity_ other.capacity_
  let self := { self with capacity_ := c.1 }
  let other := { other with capacity_ := c.2 }
  (self, other, tr)

/-- The copy constructor `Vector(const Vector& other)` (lines 13-16).  It has no
mem-initialiser and its body only prints, so the new object gets the default member
initialisers whatever `other` is. -/
def Vector.copyCtor (other : Vector) (tr : Trace) : Vector × Trace :=
  let self := Vector.init
  let tr := tr.enterCtor
  let tr := tr.print "copy constructor"
  let tr := tr.print "ALLOCATION AND COPYING"
  (self, tr)

/-- The move constructor `Vector(Vector&& other)` (lines 18-21).  Returns the new
object and the state `other` is left in. -/
def Vector.moveCtor (other : Vector) (tr : Trace) : Vector × Vector × Trace :=
  let self := Vector.init
  let tr := tr.enterCtor
  let tr := tr.print "move constructor"
  Vector.swap self other tr

/-- The body of `Vector& operator=(Vector other)` (lines 23-26), entered with the
by-value parameter already initialised to `other`.  Returns the state of `*this` and
the state of the parameter at the end of the body (before it is destroyed). -/
def Vector.assign (self other : Vector) (tr : Trace) : Vector × Vector × Trace :=
  Vector.swap self other tr

/-- The function `Vector BuildHeavyVector()` (lines 41-43): `return Vector();`
initialises the result object with the default constructor. -/
def BuildHeavyVector (tr : Trace) : Vector × Trace :=
  Vector.defaultCtor tr

/-! ### Statements on named objects -/

/-- The declaration `Vector n(std::move(s));` for an object `s`.  Returns `n` and `s`. -/
def moveConstruct (s : Vector) (tr : Trace) : Vector × Vector × Trace :=
  Vector.moveCtor s tr

/-- The statement `t = std::move(s);` for two objects `t` and `s`: the parameter of
`operator=` is move-constructed from `s`, the body runs on `t`, and the parameter is
destroyed when the call is over.  Returns `t` and `s`. -/
def moveAssign (t s : Vector) (tr : Trace) : Vector × Vector × Trace :=
  let r := Vector.moveCtor s tr
  let a := Vector.assign t r.1 r.2.2
  (a.1, r.2.1, Vector.dtor a.2.1 a.2.2)

/-- The statement `t = s;` for two objects `t` and `s`: the parameter of `operator=`
is copy-constructed from `s` (a `const` reference, `s` is not written), the body runs
on `t`, and the parameter is destroyed when the call is over.  Returns `t` and `s`. -/
def copyAssign (t s : Vector) (tr : Trace) : Vector × Vector × Trace :=
  let r := Vector.copyCtor s tr
  let a := Vector.assign t r.1 r.2
  (a.1, s, Vector.dtor a.2.1 a.2.2)

/-- The statement `t = BuildHeavyVector();`: the returned prvalue initialises the
parameter of `operator=` directly (no copy or move constructor call). -/
def tempAssign (t : Vector) (tr : Trace) : Vector × Trace :=
  let r := BuildHeavyVector tr
  let a := Vector.assign t r.1 r.2
  (a.1, Vector.dtor a.2.1 a.2.2)

/-- The function `main` (lines 45-52).  The locals `v1`, `v2`, `v3` are destroyed in
reverse order of declaration at `return 0;`. -/
def main (tr : Trace) : Trace :=
  let r1 := Vector.defaultCtor tr
  let v1 := r1.1
  let r2 := Vector.copyCtor v1 r1.2
  let v2 := r2.1
  let r3 := Vector.defaultCtor r2.2
  let v3 := r3.1
  let r4 := tempAssign v3 r3.2
  let v3 := r4.1
  let tr := r4.2
  let tr := Vector.dtor v3 tr
  let tr := Vector.dtor v2 tr
  let tr := Vector.dtor v1 tr
  tr

/-! ### Client programs of the public interface

To speak about every `Vector` a program can reach, client programs are sequences of
statements over a store of objects; an object is named by its index in the store, so
two operands of a statement may be the same object. -/

/-- A statement that uses the public interface of `Vector`. -/
inductive Stmt where
  /-- The declaration `Vector v;`. -/
  | declDefault
  /-- The declaration `Vector v(x);` for the object `x` at index `src`. -/
  | declCopy (src : Nat)
  /-- The declaration `Vector v(std::move(x));`. -/
  | declMove (src : Nat)
  /-- The statement `x = y;`. -/
  | assignCopy (dst src : Nat)
  /-- The statement `x = std::move(y);`. -/
  | assignMove (dst src : Nat)
  /-- The statement `x = BuildHeavyVector();`. -/
  | assignTemp (dst : Nat)
  /-- The statement `x.swap(y);`. -/
  | swap (a b : Nat)
deriving DecidableEq, Repr

/-- The objects declared so far and the trace. -/
structure Machine where
  objs : List Vector
  tr : Trace
deriving DecidableEq, Repr

/-- The machine of a program that has not done anything yet. -/
def Machine.start : Machine := ⟨[], Trace.empty⟩

/-- Runs one statement.  Objects are read from and written back to the store in the
order the source does it.  A statement that names an object that was never declared
is not a program and leaves the machine as it is. -/
def Machine.exec (m : Machine) : Stmt → Machine
  | .declDefault =>
    let r := Vector.defaultCtor m.tr
    ⟨m.objs ++ [r.1], r.2⟩
  | .declCopy src =>
    match m.objs[src]? with
    | none => m
    | some s =>
      let r := Vector.copyCtor s m.tr
      ⟨m.objs ++ [r.1], r.2⟩
  | .declMove src =>
    match m.objs[src]? with
    | none => m
    | some s =>
      let r := Vector.moveCtor s m.tr
      ⟨m.objs.set src r.2.1 ++ [r.1], r.2.2⟩
  | .assignCopy dst src =>
    match m.objs[src]? with
    | none => m
    | some s =>
      let r := Vector.copyCtor s m.tr
      match m.objs[dst]? with
      | none => m
      | some t =>
        let a := Vector.assign t r.1 r.2
        ⟨m.objs.set dst a.1, Vector.dtor a.2.1 a.2.2⟩
  | .assignMove dst src =>
    match m.objs[src]? with
    | none => m
    | some s =>
      let r := Vector.moveCtor s m.tr
      let objs := m.objs.set src r.2.1
      match objs[dst]? with
      | none => m
      | some t =>
        let a := Vector.assign t r.1 r.2.2
        ⟨objs.set dst a.1, Vector.dtor a.2.1 a.2.2⟩
  | .assignTemp dst =>
    match m.objs[dst]? with
    | none => m
    | some t =>
      let r := tempAssign t m.tr
      ⟨m.objs.set dst r.1, r.2⟩
  | .swap a b =>
    match m.objs[a]?, m.objs[b]? with
    | some x, some y =>
      let r := Vector.swap x y m.tr
      ⟨(m.objs.set a r.1).set b r.2.1, r.2.2⟩
    | _, _ => m

/-- Runs a client program from the start. -/
def run (prog : List Stmt) : Machine :=
  prog.foldl Machine.exec Machine.start

/-- The invariant of client programs: every declared object and every object that has
been destroyed is in the default state. -/
def Machine.AllInit (m : Machine) : Prop :=
  (∀ v ∈ m.objs, v = Vector.init) ∧ (∀ v ∈ m.tr.destroyed, v = Vector.init)

/-- Whether the object in state `v` holds the buffer at address `a`. -/
def Vector.owns (v : Vector) (a : Nat) : Bool :=
  v.data_ == some a

end CopyAndSwap

namespace UniversalReference

/-- The data member of `class Person` (line 23). -/
structure Person where
  name_ : String
deriving DecidableEq, Repr

/-- The data of `class Student : public Person` (lines 30-49): the base class
subobject and the member `name_` that `Student` declares itself (line 48). -/
structure Student where
  base : Person
  name_ : String
deriving DecidableEq, Repr

/-- The constructors of the program; the trace records which of them ran. -/
inductive Call where
  /-- The constructor `Person() = default;` (line 6). -/
  | personDefault
  /-- The constructor `explicit Person(const std::string& name)` (line 8). -/
  | personFromName
  /-- The constructor `Person(const Person& other)` (lines 10-12). -/
  | personCopy
  /-- The constructor `Person(Person&& other)` (lines 14-16). -/
  | personMove
  /-- The constructor `Student(const Person& p)` (lines 32-34). -/
  | studentFromConstRef
  /-- The constructor `Student(Person&& other)` (lines 36-38). -/
  | studentFromRvalueRef
  /-- The constructor `Student(const std::string&, const std::string&)` (lines 40-45). -/
  | studentFromNames
deriving DecidableEq, Repr

/-- What an execution leaves behind.  `out` is `std::cout`; `calls` is bookkeeping
that the source does not have: the constructors entered so far, in order. -/
structure Trace where
  out : List String
  calls : List Call
deriving DecidableEq, Repr

/-- The trace of a program that has not done anything yet. -/
def Trace.empty : Trace := ⟨[], []⟩

/-- One statement `std::cout << ... << '\n';` whose text is `line`. -/
def Trace.print (line : String) (tr : Trace) : Trace :=
  { tr with out := tr.out ++ [line] }

/-- Bookkeeping at the entry of the constructor `c`. -/
def Trace.enter (c : Call) (tr : Trace) : Trace :=
  { tr with calls := tr.calls ++ [c] }

/-- The constructor `Person() = default;` (line 6): `name_` is the empty string. -/
def Person.defaultCtor (tr : Trace) : Person × Trace :=
  (⟨""⟩, tr.enter .personDefault)

/-- The constructor `explicit Person(const std::string& name) : name_{name} {}`. -/
def Person.fromName (name : String) (tr : Trace) : Person × Trace :=
  (⟨name⟩, tr.enter .personFromName)

/-- The copy constructor `Person(const Person& other)` (lines 10-12). -/
def Person.copyCtor (other : Person) (tr : Trace) : Person × Trace :=
  let tr := tr.enter .personCopy
  let self : Person := ⟨other.name_ ++ "_copy"⟩
  let tr := tr.print ("constructed " ++ self.name_ ++ " from " ++ other.name_)
  (self, tr)

/-- The move constructor `Person(Person&& other)` (lines 14-16).  The member `name_`
is a `const std::string`, so `std::move(other.name_)` is a `const std::string&&` and
initialises the new `name_` by copy: `other` keeps its name.  Returns the new object
and `other`. -/
def Person.moveCtor (other : Person) (tr : Trace) : Person × Person × Trace :=
  let tr := tr.enter .personMove
  let self : Person := ⟨other.name_⟩
  let tr := tr.print "Person(Person&& other)"
  (self, other, tr)

/-- The member `std::string GetName() const` of `Person` (lines 18-20). -/
def Person.GetName (self : Person) : String :=
  self.name_

/-- The member `GetName` that `Student` inherits: it is `Person::GetName` on the base
class subobject and does not see the member `name_` of `Student`. -/
def Student.GetName (self : Student) : String :=
  self.base.GetName

/-- The function `Person MakePerson(const std::string& name)` (lines 26-28). -/
def MakePerson (name : String) (tr : Trace) : Person × Trace :=
  Person.fromName name tr

/-- The constructor `Student(const Person& p) : name_{p.GetName()}` (lines 32-34).
The base class is not in the mem-initialiser list and is default-constructed. -/
def Student.fromConstRef (p : Person) (tr : Trace) : Student × Trace :=
  let tr := tr.enter .studentFromConstRef
  let b := Person.defaultCtor tr
  let self : Student := ⟨b.1, p.GetName⟩
  let tr := b.2.print ("student from person " ++ self.name_)
  (self, tr)

/-- The constructor `Student(Person&& other) : Person{std::move(other)}` (lines 36-38).
The member `name_` of `Student` is not in the mem-initialiser list and is the empty
string.  Returns the new object and `other`. -/
def Student.fromRvalueRef (other : Person) (tr : Trace) : Student × Person × Trace :=
  let tr := tr.enter .studentFromRvalueRef
  let b := Person.moveCtor other tr
  let self : Student := ⟨b.1, ""⟩
  let tr := b.2.2.print "Student(Person&& other)"
  (self, b.2.1, tr)

/-- The constructor `Student(const std::string& first_name, const std::string& last_name)`
(lines 40-45). -/
def Student.fromNames (first_name last_name : String) (tr : Trace) : Student × Trace :=
  let tr := tr.enter .studentFromNames
  let b := Person.defaultCtor tr
  (⟨b.1, first_name ++ " " ++ last_name⟩, b.2)

/-! ### Value categories, reference collapsing and overload selection

The rules of the language that decide which constructor a call site of `MakeUnique`
runs.  Arguments are expressions of type `Person` (not `const`, not of a derived
class), as at the two call sites of `main`. -/

/-- The value category of an expression; `rvalue` covers prvalues and xvalues. -/
inductive ValueCategory where
  | lvalue
  | rvalue
deriving DecidableEq, Repr

/-- A reference qualifier: `&` or `&&`. -/
inductive RefQual where
  | lref
  | rref
deriving DecidableEq, Repr

/-- The table REFERENCE COLLAPSING RULES (lines 100-104), row by row: the first
argument is the qualifier the type already has, the second the one written after it. -/
def collapse : RefQual → RefQual → RefQual
  | .lref, .lref => .lref
  | .lref, .rref => .lref
  | .rref, .lref => .lref
  | .rref, .rref => .rref

/-- A template argument over the class type `A`: `A`, `A&` or `A&&`. -/
inductive TypeArg where
  /-- The non-reference type `A`. -/
  | plain
  /-- The reference type `A&` or `A&&`. -/
  | ref (q : RefQual)
deriving DecidableEq, Repr

/-- The reference type written `T q` for a template argument `T`: the qualifier
itself on a non-reference type, the collapsed qualifier on a reference type. -/
def TypeArg.withRef (T : TypeArg) (q : RefQual) : RefQual :=
  match T with
  | .plain => q
  | .ref r => collapse r q

/-- The value category of a call to a function whose return type is a reference. -/
def RefQual.callCategory : RefQual → ValueCategory
  | .lref => .lvalue
  | .rref => .rvalue

/-- The function template `forward<T>` (lines 107-112): the kind of reference
`static_cast<T&&>(a)` returns, the return type being `T&&`.  `std::forward<T>` on an
lvalue has the same signature and body. -/
def forward (T : TypeArg) : RefQual :=
  T.withRef .rref

/-- Deduction of the template parameter `A` of `MakeUnique(A&& arg)` from the value
category of the argument: `A&` for an lvalue, `A` for an rvalue. -/
def deduce : ValueCategory → TypeArg
  | .lvalue => .ref .lref
  | .rvalue => .plain

/-- The parameter types of the two constructors of `Student` that take a `Person`. -/
inductive ParamType where
  /-- The type `const Person&`. -/
  | constLref
  /-- The type `Person&&`. -/
  | rvalueRef
deriving DecidableEq, Repr

/-- The two constructors of `Student` that take a `Person` (lines 32 and 36).  The
implicit copy and move constructors of `Student` are no candidates for a `Person`
argument. -/
inductive StudentCtor where
  /-- The constructor `Student(const Person& p)`. -/
  | fromConstRef
  /-- The constructor `Student(Person&& other)`. -/
  | fromRvalueRef
deriving DecidableEq, Repr

/-- The declared parameter type of a constructor. -/
def StudentCtor.param : StudentCtor → ParamType
  | .fromConstRef => .constLref
  | .fromRvalueRef => .rvalueRef

/-- Reference binding: a `const Person&` binds to every `Person` expression, a
`Person&&` only to an rvalue. -/
def ParamType.binds : ParamType → ValueCategory → Bool
  | .constLref, _ => true
  | .rvalueRef, .rvalue => true
  | .rvalueRef, .lvalue => false

/-- Ranking of two reference bindings of the same argument: binding an rvalue
reference to an rvalue is better than binding an lvalue reference to it. -/
def ParamType.better (arg : ValueCategory) (p q : ParamType) : Bool :=
  match arg, p, q with
  | .rvalue, .rvalueRef, .constLref => true
  | _, _, _ => false

/-- Overload resolution for `new Student(e)` with `e` a `Person` expression of
category `arg`: the viable candidate that is better than every other viable one. -/
def selectCtor (arg : ValueCategory) : Option StudentCtor :=
  let viable := [StudentCtor.fromConstRef, StudentCtor.fromRvalueRef].filter
    (fun c => c.param.binds arg)
  viable.find? (fun c => viable.all (fun d => decide (d = c) || c.param.better arg d.param))

/-- The function template `MakeUnique<Student>(A&& arg)` (lines 117-120), called
with an argument of value category `cat` that denotes the object `arg`.  Returns the
new `Student` (the object the `unique_ptr` owns), the argument object afterwards and
the trace; `none` stands for a call with no viable constructor. -/
def MakeUnique (cat : ValueCategory) (arg : Person) (tr : Trace) :
    Option (Student × Person × Trace) :=
  let A := deduce cat
  let e := (forward A).callCategory
  match selectCtor e with
  | none => none
  | some .fromConstRef =>
    let r := Student.fromConstRef arg tr
    some (r.1, arg, r.2)
  | some .fromRvalueRef =>
    some (Student.fromRvalueRef arg tr)

/-- The function `main` (lines 127-136).  The destructors that run at `return 0;`
are implicit and print nothing. -/
def main (tr : Trace) : Option Trace :=
  let a := Person.fromName "Antosha" tr
  match MakeUnique .lvalue a.1 a.2 with
  | none => none
  | some r1 =>
    let t := MakePerson "Vitalik" r1.2.2
    match MakeUnique .rvalue t.1 t.2 with
    | none => none
    | some r2 => some r2.2.2

/-- Whether a printed line starts with the text `constructed ` that only the copy
constructor of `Person` prints. -/
def isCopyLine (line : String) : Bool :=
  "constructed ".toList.isPrefixOf line.toList

end UniversalReference

/-! ## Facts about `Vector` -/

namespace CopyAndSwap

/-- The three field swaps of `swap` exchange the two states as a whole. -/
theorem Vector.swap_eq (a b : Vector) (tr : Trace) :
    Vector.swap a b tr = (b, a, tr.print "swap") := by
  cases a
  cases b
  rfl

/-- The copy constructor yields the default state and leaves its two trace lines. -/
theorem Vector.copyCtor_eq (s : Vector) (tr : Trace) :
    Vector.copyCtor s tr =
      (Vector.init, ((tr.enterCtor).print "copy constructor").print "ALLOCATION AND COPYING") :=
  rfl

/-- The move constructor takes over the state of its source and resets the source. -/
theorem Vector.moveCtor_eq (s : Vector) (tr : Trace) :
    Vector.moveCtor s tr =
      (s, Vector.init, ((tr.enterCtor).print "move constructor").print "swap") := by
  unfold Vector.moveCtor
  simp only [Vector.swap_eq]

/-- The invariant holds before the first statement. -/
theorem Machine.allInit_start : Machine.start.AllInit := by
  constructor <;> intro v hv <;> simp [Machine.start, Trace.empty] at hv

/-- Writing a default-state object into a store of default-state objects. -/
theorem allInit_set (l : List Vector) (i : Nat) (h : ∀ v ∈ l, v = Vector.init) :
    ∀ v ∈ l.set i Vector.init, v = Vector.init := by
  intro v hv
  rcases List.mem_or_eq_of_mem_set hv with h1 | h1
  · exact h v h1
  · exact h1

/-- Every statement keeps the invariant. -/
theorem Machine.allInit_exec (m : Machine) (st : Stmt) (h : m.AllInit) :
    (m.exec st).AllInit := by
  obtain ⟨ho, hd⟩ := h
  cases st with
  | declDefault =>
    refine ⟨?_, hd⟩
    intro v hv
    simp only [Machine.exec, Vector.defaultCtor, List.mem_append, List.mem_singleton] at hv
    rcases hv with hv | hv
    · exact ho v hv
    · exact hv
  | declCopy src =>
    simp only [Machine.exec]
    cases hs : m.objs[src]? with
    | none => exact ⟨ho, hd⟩
    | some s =>
      refine ⟨?_, hd⟩
      intro v hv
      simp only [Vector.copyCtor_eq, List.mem_append, List.mem_singleton] at hv
      rcases hv with hv | hv
      · exact ho v hv
      · exact hv
  | declMove src =>
    simp only [Machine.exec]
    cases hs : m.objs[src]? with
    | none => exact ⟨ho, hd⟩
    | some s =>
      have hsi : s = Vector.init := ho s (List.getElem?_mem hs)
      subst hsi
      refine ⟨?_, hd⟩
      intro v hv
      simp only [Vector.moveCtor_eq, List.mem_append, List.mem_singleton] at hv
      rcases hv with hv | hv
      · exact allInit_set m.objs src ho v hv
      · exact hv
  | assignCopy dst src =>
    simp only [Machine.exec]
    cases hs : m.objs[src]? with
    | none => exact ⟨ho, hd⟩
    | some s =>
      cases ht : m.objs[dst]? with
      | none => exact ⟨ho, hd⟩
      | some t =>
        have hti : t = Vector.init := ho t (List.getElem?_mem ht)
        subst hti
        simp only [Vector.copyCtor_eq, Vector.assign, Vector.swap_eq]
        refine ⟨allInit_set m.objs dst ho, ?_⟩
        intro v hv
        simp only [Vector.dtor, Trace.print, Trace.enterCtor, List.mem_append,
          List.mem_singleton] at hv
        rcases hv with hv | hv
        · exact hd v hv
        · exact hv
  | assignMove dst src =>
    simp only [Machine.exec]
    cases hs : m.objs[src]? with
    | none => exact ⟨ho, hd⟩
    | some s =>
      have hsi : s = Vector.init := ho s (List.getElem?_mem hs)
      subst hsi
      simp only [Vector.moveCtor_eq]
      have ho1 := allInit_set m.objs src ho
      cases ht : (m.objs.set src Vector.init)[dst]? with
      | none => exact ⟨ho, hd⟩
      | some t =>
        have hti : t = Vector.init := ho1 t (List.getElem?_mem ht)
        subst hti
        simp only [Vector.assign, Vector.swap_eq]
        refine ⟨allInit_set _ dst ho1, ?_⟩
        intro v hv
        simp only [Vector.dtor, Trace.print, Trace.enterCtor, List.mem_append,
          List.mem_singleton] at hv
        rcases hv with hv | hv
        · exact hd v hv
        · exact hv
  | assignTemp dst =>
    simp only [Machine.exec]
    cases ht : m.objs[dst]? with
    | none => exact ⟨ho, hd⟩
    | some t =>
      have hti : t = Vector.init := ho t (List.getElem?_mem ht)
      subst hti
      simp only [tempAssign, BuildHeavyVector, Vector.defaultCtor, Vector.assign, Vector.swap_eq]
      refine ⟨allInit_set m.objs dst ho, ?_⟩
      intro v hv
      simp only [Vector.dtor, Trace.print, Trace.enterCtor, List.mem_append,
        List.mem_singleton] at hv
      rcases hv with hv | hv
      · exact hd v hv
      · exact hv
  | swap a b =>
    simp only [Machine.exec]
    cases ha : m.objs[a]? with
    | none => exact ⟨ho, hd⟩
    | some x =>
      cases hb : m.objs[b]? with
      | none => exact ⟨ho, hd⟩
      | some y =>
        have hx : x = Vector.init := ho x (List.getElem?_mem ha)
        have hy : y = Vector.init := ho y (List.getElem?_mem hb)
        subst hx
        subst hy
        simp only [Vector.swap_eq]
        exact ⟨allInit_set _ b (allInit_set m.objs a ho), hd⟩

/-- The invariant holds after any sequence of statements. -/
theorem Machine.allInit_foldl (prog : List Stmt) (m : Machine) (h : m.AllInit) :
    (prog.foldl Machine.exec m).AllInit := by
  induction prog generalizing m with
  | nil => exact h
  | cons st rest ih => exact ih (m.exec st) (Machine.allInit_exec m st h)

end CopyAndSwap

/-! ## The program `6_copy_and_swap.cpp` -/

namespace CopyAndSwap

/-- The store-based statement `x = std::move(y)` on two different objects is the
statement `moveAssign` on their states. -/
theorem exec_assignMove_pair (t s : Vector) (tr : Trace) :
    (Machine.mk [t, s] tr).exec (.assignMove 0 1) =
      ⟨[(moveAssign t s tr).1, (moveAssign t s tr).2.1], (moveAssign t s tr).2.2⟩ :=
  rfl

/-- The store-based statement `x = y` on two different objects is the statement
`copyAssign` on their states. -/
theorem exec_assignCopy_pair (t s : Vector) (tr : Trace) :
    (Machine.mk [t, s] tr).exec (.assignCopy 0 1) =
      ⟨[(copyAssign t s tr).1, (copyAssign t s tr).2.1], (copyAssign t s tr).2.2⟩ :=
  rfl

/-- The store-based declaration `Vector n(std::move(x))` is `moveConstruct` on the
state of `x`. -/
theorem exec_declMove_single (s : Vector) (tr : Trace) :
    (Machine.mk [s] tr).exec (.declMove 0) =
      ⟨[(moveConstruct s tr).2.1, (moveConstruct s tr).1], (moveConstruct s tr).2.2⟩ :=
  rfl

/-- A self-swap `x.swap(x)` leaves the object as it is. -/
theorem exec_swap_self (x : Vector) (tr : Trace) :
    ((Machine.mk [x] tr).exec (.swap 0 0)).objs = [x] := by
  cases x
  rfl

/-- The statement `x = std::move(x)` on one object gives the object its state back:
the parameter takes the state over and the body swaps it in again. -/
theorem exec_assignMove_self (x : Vector) (tr : Trace) :
    ((Machine.mk [x] tr).exec (.assignMove 0 0)).objs = [x] := by
  cases x
  rfl

/-- Claim C1: run with an empty console, `main` of `6_copy_and_swap.cpp` prints exactly
the lines "copy constructor", "ALLOCATION AND COPYING", "swap" and four times
"delete memory", in this order; "move constructor" is not among them, and the number
of "delete memory" lines, 4, is the number of constructor calls that ran (for `v1`,
`v2`, `v3` and the parameter of `operator=`), each destroyed object being in the
default state. -/
theorem main_prints_copy_swap_four_deletes :
    (main Trace.empty).out =
      ["copy constructor", "ALLOCATION AND COPYING", "swap", "delete memory",
       "delete memory", "delete memory", "delete memory"] ∧
    "move constructor" ∉ (main Trace.empty).out ∧
    (main Trace.empty).out.count "delete memory" = 4 ∧
    (main Trace.empty).constructed = 4 ∧
    (main Trace.empty).destroyed =
      [Vector.init, Vector.init, Vector.init, Vector.init] := by
  decide

/-- Claim C3: for all states `a` and `b`, after `a.swap(b)` the object `a` holds the
size, the capacity and the data pointer that `b` had, `b` holds the three that `a`
had, and exactly the one line "swap" has been added to the console; the bookkeeping
of constructor and destructor calls is untouched. -/
theorem swap_exchanges_all_three_fields (a b : Vector) (tr : Trace) :
    (Vector.swap a b tr).1 = b ∧
    (Vector.swap a b tr).2.1 = a ∧
    (Vector.swap a b tr).1.size_ = b.size_ ∧
    (Vector.swap a b tr).1.capacity_ = b.capacity_ ∧
    (Vector.swap a b tr).1.data_ = b.data_ ∧
    (Vector.swap a b tr).2.1.size_ = a.size_ ∧
    (Vector.swap a b tr).2.1.capacity_ = a.capacity_ ∧
    (Vector.swap a b tr).2.1.data_ = a.data_ ∧
    (Vector.swap a b tr).2.2.out = tr.out ++ ["swap"] ∧
    (Vector.swap a b tr).2.2.constructed = tr.constructed ∧
    (Vector.swap a b tr).2.2.destroyed = tr.destroyed := by
  rw [Vector.swap_eq]
  simp [Trace.print]

/-- Claim C4: for all states `t` and `s` of two objects, the statement
`t = std::move(s)` adds the lines "move constructor", "swap", "swap", "delete memory"
to the console in this order, leaves `t` with the state `s` had, leaves `s` in the
default state (size 0, capacity 0, null data), runs one constructor, and the one
object it destroys (the by-value parameter) holds the state `t` had. -/
theorem moveAssign_transfers_and_destroys_old_target (t s : Vector) (tr : Trace) :
    (moveAssign t s tr).1 = s ∧
    (moveAssign t s tr).2.1 = Vector.init ∧
    (moveAssign t s tr).2.2.out =
      tr.out ++ ["move constructor", "swap", "swap", "delete memory"] ∧
    (moveAssign t s tr).2.2.constructed = tr.constructed + 1 ∧
    (moveAssign t s tr).2.2.destroyed = tr.destroyed ++ [t] := by
  simp [moveAssign, Vector.moveCtor_eq, Vector.assign, Vector.swap_eq, Vector.dtor,
    Trace.print, Trace.enterCtor]

/-- Claim C5, as stated, fails: with the target `t` of size 1, capacity 2 and a
buffer at address 5 and the source `s` of size 3, capacity 4 and a buffer at
address 7, the statement `t = s` prints the four lines and leaves `s`
unchanged, but `t` ends with size 0 and capacity 0, not with the size and capacity
of `s`. -/
theorem copyAssign_target_is_no_copy_of_source :
    (copyAssign ⟨1, 2, some 5⟩ ⟨3, 4, some 7⟩ Trace.empty).2.2.out =
      ["copy constructor", "ALLOCATION AND COPYING", "swap", "delete memory"] ∧
    (copyAssign ⟨1, 2, some 5⟩ ⟨3, 4, some 7⟩ Trace.empty).2.1 = ⟨3, 4, some 7⟩ ∧
    (copyAssign ⟨1, 2, some 5⟩ ⟨3, 4, some 7⟩ Trace.empty).1 = ⟨0, 0, none⟩ ∧
    ¬ ((copyAssign ⟨1, 2, some 5⟩ ⟨3, 4, some 7⟩ Trace.empty).1.size_ =
          (Vector.mk 3 4 (some 7)).size_ ∧
       (copyAssign ⟨1, 2, some 5⟩ ⟨3, 4, some 7⟩ Trace.empty).1.capacity_ =
          (Vector.mk 3 4 (some 7)).capacity_) := by
  decide

/-- Claim C5, amended: for all states `t` and `s` of two objects, the statement
`t = s` adds the lines "copy constructor", "ALLOCATION AND COPYING", "swap",
"delete memory" to the console in this order, leaves `s` unchanged, and leaves `t` in
the default state (size 0, capacity 0, null data) whatever `s` is; the object it
destroys holds the state `t` had.  So `t` has the size and capacity of `s` exactly
when `s` has size 0 and capacity 0. -/
theorem copyAssign_resets_target (t s : Vector) (tr : Trace) :
    (copyAssign t s tr).1 = Vector.init ∧
    (copyAssign t s tr).2.1 = s ∧
    (copyAssign t s tr).2.2.out =
      tr.out ++ ["copy constructor", "ALLOCATION AND COPYING", "swap", "delete memory"] ∧
    (copyAssign t s tr).2.2.constructed = tr.constructed + 1 ∧
    (copyAssign t s tr).2.2.destroyed = tr.destroyed ++ [t] ∧
    (((copyAssign t s tr).1.size_ = s.size_ ∧
        (copyAssign t s tr).1.capacity_ = s.capacity_) ↔
      (s.size_ = 0 ∧ s.capacity_ = 0)) := by
  simp [copyAssign, Vector.copyCtor_eq, Vector.assign, Vector.swap_eq, Vector.dtor,
    Trace.print, Trace.enterCtor, Vector.init, eq_comm]

/-- Claim C8: for every state `s`, the declaration `Vector n(std::move(s))` adds the
lines "move constructor" and "swap" to the console, leaves `n` with the size,
capacity and data pointer `s` had, leaves `s` in the default state (size 0,
capacity 0, null data), and destroys nothing; for every address, exactly one of `n`
and `s` owns the buffer there afterwards if `s` owned it before, and none otherwise. -/
theorem moveConstruct_transfers_ownership (s : Vector) (tr : Trace) :
    (moveConstruct s tr).1 = s ∧
    (moveConstruct s tr).2.1 = Vector.init ∧
    (moveConstruct s tr).2.1.size_ = 0 ∧
    (moveConstruct s tr).2.1.capacity_ = 0 ∧
    (moveConstruct s tr).2.1.data_ = none ∧
    (moveConstruct s tr).2.2.out = tr.out ++ ["move constructor", "swap"] ∧
    (moveConstruct s tr).2.2.constructed = tr.constructed + 1 ∧
    (moveConstruct s tr).2.2.destroyed = tr.destroyed ∧
    (∀ a : Nat, (moveConstruct s tr).1.owns a = s.owns a ∧
      (moveConstruct s tr).2.1.owns a = false ∧
      xor ((moveConstruct s tr).1.owns a) ((moveConstruct s tr).2.1.owns a) = s.owns a) := by
  simp [moveConstruct, Vector.moveCtor_eq, Trace.print, Trace.enterCtor, Vector.init,
    Vector.owns]

/-- Claim C9: after any client program of default construction, copy construction,
move construction, the three forms of assignment and `swap`, run from the start, every
declared `Vector` and every `Vector` that was destroyed has size 0, capacity 0 and
null data; and the copy constructor yields that state for every source, in whatever
state the source is. -/
theorem reachable_vectors_are_default (prog : List Stmt) :
    (∀ v ∈ (run prog).objs, v = Vector.init) ∧
    (∀ v ∈ (run prog).tr.destroyed, v = Vector.init) ∧
    (∀ (s : Vector) (tr : Trace), (Vector.copyCtor s tr).1 = Vector.init) :=
  ⟨(Machine.allInit_foldl prog Machine.start Machine.allInit_start).1,
   (Machine.allInit_foldl prog Machine.start Machine.allInit_start).2,
   fun _ _ => rfl⟩

/-- Witness for claim C9: a program that uses every kind of statement, also with
both operands the same object, declares five objects and destroys four; one of the
declared objects is inspected. -/
theorem reachable_vectors_are_default_witness :
    (run [.declDefault, .declCopy 0, .declMove 1, .assignCopy 0 2, .assignMove 1 0,
        .assignTemp 2, .swap 0 1, .declDefault, .assignMove 3 3, .swap 2 2,
        .declCopy 3]).objs.length = 5 ∧
    (run [.declDefault, .declCopy 0, .declMove 1, .assignCopy 0 2, .assignMove 1 0,
        .assignTemp 2, .swap 0 1, .declDefault, .assignMove 3 3, .swap 2 2,
        .declCopy 3]).tr.destroyed.length = 4 ∧
    (⟨0, 0, none⟩ : Vector) ∈
      (run [.declDefault, .declCopy 0, .declMove 1, .assignCopy 0 2, .assignMove 1 0,
        .assignTemp 2, .swap 0 1, .declDefault, .assignMove 3 3, .swap 2 2,
        .declCopy 3]).objs ∧
    (⟨0, 0, none⟩ : Vector) = Vector.init :=
  ⟨by decide, by decide, by decide,
   (reachable_vectors_are_default
      [.declDefault, .declCopy 0, .declMove 1, .assignCopy 0 2, .assignMove 1 0,
        .assignTemp 2, .swap 0 1, .declDefault, .assignMove 3 3, .swap 2 2,
        .declCopy 3]).1 ⟨0, 0, none⟩ (by decide)⟩

end CopyAndSwap

/-! ## The program `4_universal_reference.cpp` -/

namespace UniversalReference

/-- The parameter `A&& arg` of `MakeUnique` instantiates as an lvalue reference for an
lvalue argument and as an rvalue reference for an rvalue argument (lines 93-98). -/
theorem deduce_withRef (cat : ValueCategory) :
    ((deduce cat).withRef .rref).callCategory = cat := by
  cases cat <;> rfl

/-- Claim C2: run with an empty console, `main` of `4_universal_reference.cpp` returns
and has printed exactly the lines "student from person Antosha",
"Person(Person&& other)", "Student(Person&& other)", in this order; no line starts
with "constructed ", and the copy constructor of `Person` is not among the
constructors that ran. -/
theorem main_prints_student_then_move_lines :
    (main Trace.empty).map (fun t => t.out) =
      some ["student from person Antosha", "Person(Person&& other)",
        "Student(Person&& other)"] ∧
    (main Trace.empty).map (fun t => t.out.any isCopyLine) = some false ∧
    (main Trace.empty).map (fun t => t.calls) =
      some [Call.personFromName, Call.studentFromConstRef, Call.personDefault,
        Call.personFromName, Call.studentFromRvalueRef, Call.personMove] ∧
    (main Trace.empty).map (fun t => t.calls.count Call.personCopy) = some 0 := by
  decide

/-- Claim C7: the collapsed qualifier of two reference qualifiers is an rvalue
reference if and only if both are; the four rows of the table read `A& &` to `A&`,
`A& &&` to `A&`, `A&& &` to `A&`, `A&& &&` to `A&&`; and `forward<T>` returns an lvalue
reference (its call is an lvalue) for `T` an lvalue reference type, and an rvalue
reference (its call is an rvalue) for `T` a non-reference type or an rvalue reference
type. -/
theorem collapse_rref_iff_both_and_forward_kind :
    (∀ q1 q2 : RefQual, collapse q1 q2 = .rref ↔ (q1 = .rref ∧ q2 = .rref)) ∧
    collapse .lref .lref = .lref ∧
    collapse .lref .rref = .lref ∧
    collapse .rref .lref = .lref ∧
    collapse .rref .rref = .rref ∧
    forward (.ref .lref) = .lref ∧
    forward .plain = .rref ∧
    forward (.ref .rref) = .rref ∧
    (forward (.ref .lref)).callCategory = .lvalue ∧
    (forward .plain).callCategory = .rvalue ∧
    (forward (.ref .rref)).callCategory = .rvalue := by
  refine ⟨?_, rfl, rfl, rfl, rfl, rfl, rfl, rfl, rfl, rfl, rfl⟩
  intro q1 q2
  cases q1 <;> cases q2 <;> decide

/-- Claim C10: for every `Person` `p`, with `p.name_` the name stored in `p`, the
`Student` that `MakeUnique<Student>` builds from `p` as an lvalue adds the one line
"student from person " followed by `p.name_` to the console, keeps `p.name_` in its own
member `name_`, has a default-constructed base whose name is empty, and its inherited
`GetName()` returns the empty string; the `Student` built from `p` as an rvalue has a
base that holds `p.name_`, an empty own member, and `GetName()` equal to `p.name_`,
which is also what `p.GetName()` returns. -/
theorem lvalue_student_has_empty_GetName (p : Person) (tr : Trace) :
    (MakeUnique .lvalue p tr).map (fun r => r.2.2.out) =
      some (tr.out ++ ["student from person " ++ p.name_]) ∧
    (MakeUnique .lvalue p tr).map (fun r => r.1) = some ⟨⟨""⟩, p.name_⟩ ∧
    (MakeUnique .lvalue p tr).map (fun r => r.1.name_) = some p.name_ ∧
    (MakeUnique .lvalue p tr).map (fun r => r.1.base) = some ⟨""⟩ ∧
    (MakeUnique .lvalue p tr).map (fun r => r.1.GetName) = some "" ∧
    (MakeUnique .rvalue p tr).map (fun r => r.1) = some ⟨⟨p.name_⟩, ""⟩ ∧
    (MakeUnique .rvalue p tr).map (fun r => r.1.GetName) = some p.name_ ∧
    p.GetName = p.name_ := by
  simp [MakeUnique, deduce, forward, TypeArg.withRef, collapse, RefQual.callCategory,
    selectCtor, StudentCtor.param, ParamType.binds, ParamType.better,
    Student.fromConstRef, Student.fromRvalueRef, Person.defaultCtor, Person.moveCtor,
    Trace.enter, Trace.print, Student.GetName, Person.GetName]

end UniversalReference
